import Mathlib

/-!
Verification of the memorybench chunking bridges.

Shallow embedding of the three Python bridge scripts
(chonkie_bridge.py, langchain_bridge.py, llamaindex_bridge.py).
Documents and file paths are `List Char`; Python `int` values coming
from the command line are `Int`; character offsets reported by a
backend are `Nat` (the backends document non-negative offsets).
The external splitting libraries (chonkie, langchain, llama-index)
are out of scope per the design and appear as abstract function
parameters returning either a span list or an exception message,
mirroring a Python call that either returns or raises.
-/

/-- Extension extraction shared verbatim by all three bridges:
Python `filepath.rsplit(".", 1)[-1].lower() if "." in filepath else ""`.
`rsplit(".", 1)[-1]` is the suffix after the last dot. -/
def extOf (filepath : List Char) : List Char :=
  if '.' ∈ filepath then
    ((filepath.reverse.takeWhile (fun c => c != '.')).reverse).map Char.toLower
  else []

/-- chonkie_bridge.py `get_language_from_filepath` extension table. -/
def chonkieLangMap : List (List Char × List Char) :=
  [("py".toList, "python".toList),
   ("js".toList, "javascript".toList),
   ("ts".toList, "typescript".toList),
   ("tsx".toList, "tsx".toList),
   ("jsx".toList, "javascript".toList),
   ("rs".toList, "rust".toList),
   ("go".toList, "go".toList),
   ("java".toList, "java".toList),
   ("c".toList, "c".toList),
   ("cpp".toList, "cpp".toList),
   ("h".toList, "c".toList),
   ("hpp".toList, "cpp".toList),
   ("rb".toList, "ruby".toList),
   ("php".toList, "php".toList),
   ("cs".toList, "c_sharp".toList),
   ("swift".toList, "swift".toList),
   ("kt".toList, "kotlin".toList),
   ("scala".toList, "scala".toList)]

/-- chonkie_bridge.py `get_language_from_filepath`:
`lang_map.get(ext, "python")`. -/
def get_language_from_filepath (filepath : List Char) : List Char :=
  (chonkieLangMap.lookup (extOf filepath)).getD "python".toList

/-- langchain_text_splitters `Language` enum members used by
langchain_bridge.py. -/
inductive LCLanguage where
  | PYTHON | JS | TS | JAVA | GO | RUBY | PHP | SCALA
  | MARKDOWN | HTML | RST | LATEX
deriving DecidableEq, Repr

/-- langchain_bridge.py `get_language_enum` extension table. -/
def langchainLangMap : List (List Char × LCLanguage) :=
  [("py".toList, LCLanguage.PYTHON),
   ("js".toList, LCLanguage.JS),
   ("ts".toList, LCLanguage.TS),
   ("java".toList, LCLanguage.JAVA),
   ("go".toList, LCLanguage.GO),
   ("rb".toList, LCLanguage.RUBY),
   ("php".toList, LCLanguage.PHP),
   ("scala".toList, LCLanguage.SCALA),
   ("md".toList, LCLanguage.MARKDOWN),
   ("html".toList, LCLanguage.HTML),
   ("rst".toList, LCLanguage.RST),
   ("latex".toList, LCLanguage.LATEX),
   ("tex".toList, LCLanguage.LATEX)]

/-- langchain_bridge.py `get_language_enum`: `lang_map.get(ext)`,
returning `None` for unsupported extensions. -/
def get_language_enum (filepath : List Char) : Option LCLanguage :=
  langchainLangMap.lookup (extOf filepath)

/-- llamaindex_bridge.py `get_language` extension table. -/
def llamaLangMap : List (List Char × List Char) :=
  [("py".toList, "python".toList),
   ("js".toList, "javascript".toList),
   ("ts".toList, "typescript".toList),
   ("tsx".toList, "tsx".toList),
   ("jsx".toList, "javascript".toList),
   ("rs".toList, "rust".toList),
   ("go".toList, "go".toList),
   ("java".toList, "java".toList),
   ("c".toList, "c".toList),
   ("cpp".toList, "cpp".toList),
   ("h".toList, "c".toList),
   ("hpp".toList, "cpp".toList),
   ("rb".toList, "ruby".toList),
   ("php".toList, "php".toList),
   ("cs".toList, "c_sharp".toList),
   ("swift".toList, "swift".toList),
   ("kt".toList, "kotlin".toList),
   ("scala".toList, "scala".toList),
   ("lua".toList, "lua".toList),
   ("pl".toList, "perl".toList),
   ("r".toList, "r".toList),
   ("sh".toList, "bash".toList),
   ("bash".toList, "bash".toList),
   ("zsh".toList, "bash".toList),
   ("ps1".toList, "powershell".toList),
   ("sql".toList, "sql".toList),
   ("md".toList, "markdown".toList),
   ("html".toList, "html".toList),
   ("css".toList, "css".toList),
   ("json".toList, "json".toList),
   ("yaml".toList, "yaml".toList),
   ("yml".toList, "yaml".toList),
   ("toml".toList, "toml".toList),
   ("xml".toList, "xml".toList)]

/-- llamaindex_bridge.py `get_language`: `lang_map.get(ext, "python")`. -/
def get_language (filepath : List Char) : List Char :=
  (llamaLangMap.lookup (extOf filepath)).getD "python".toList

/-- Offset-to-line computation appearing verbatim in every adapter:
`code[:k].count("\n") + 1` (1-indexed). -/
def lineOf (code : List Char) (k : Nat) : Nat :=
  (code.take k).count '\n' + 1

/-- A span as reported by a chonkie chunker: `chunk.text`,
`chunk.start_index`, `chunk.end_index`. -/
structure RawSpan where
  text : List Char
  startIndex : Nat
  endIndex : Nat
deriving DecidableEq, Repr

/-- One output record, the dict built in every adapter loop:
keys `id`, `text`, `startLine`, `endLine`. -/
structure Chunk where
  id : List Char
  text : List Char
  startLine : Nat
  endLine : Nat
deriving DecidableEq, Repr

/-- The id f-string shared by all adapters:
`f"{filepath}:{start_line}-{end_line}"`. -/
def chunkId (filepath : List Char) (startLine endLine : Nat) : List Char :=
  filepath ++ ":".toList ++ (Nat.repr startLine).toList
    ++ "-".toList ++ (Nat.repr endLine).toList

/-- Loop body repeated verbatim in all five chonkie adapters
(chonkie_bridge.py: code, recursive, semantic, token, sentence). -/
def mkChunk (code filepath : List Char) (sp : RawSpan) : Chunk :=
  { id := chunkId filepath (lineOf code sp.startIndex) (lineOf code sp.endIndex)
    text := sp.text
    startLine := lineOf code sp.startIndex
    endLine := lineOf code sp.endIndex }

/-- The `results` loop of each chonkie adapter over the backend spans. -/
def normalizeSpans (code filepath : List Char) (spans : List RawSpan) :
    List Chunk :=
  spans.map (mkChunk code filepath)

/-- Configuration passed to `chonkie.CodeChunker`. -/
structure CodeChunkerConfig where
  language : List Char
  tokenizer : List Char
  chunk_size : Int
deriving DecidableEq, Repr

/-- Configuration passed to `chonkie.RecursiveChunker` in
`chunk_with_recursive_chunker`; the source constructs it with the
tokenizer and chunk size only (no overlap field is supplied). -/
structure RecursiveChunkerConfig where
  tokenizer : List Char
  chunk_size : Int
deriving DecidableEq, Repr

/-- Configuration passed to `chonkie.SemanticChunker`. -/
structure SemanticChunkerConfig where
  chunk_size : Int
  similarity_threshold : ℚ
deriving DecidableEq, Repr

/-- Configuration passed to `chonkie.TokenChunker`. -/
structure TokenChunkerConfig where
  tokenizer : List Char
  chunk_size : Int
  chunk_overlap : Int
deriving DecidableEq, Repr

/-- Configuration passed to `chonkie.SentenceChunker`. -/
structure SentenceChunkerConfig where
  tokenizer : List Char
  chunk_size : Int
  min_sentences_per_chunk : Nat
deriving DecidableEq, Repr

/-- The five external chonkie chunkers, abstract: constructing the
chunker and calling `.chunk(code)` either yields spans or raises,
modelled as `Except` with the exception message. -/
structure ChonkieBackends where
  codeChunk : CodeChunkerConfig → List Char → Except (List Char) (List RawSpan)
  recursiveChunk : RecursiveChunkerConfig → List Char → Except (List Char) (List RawSpan)
  semanticChunk : SemanticChunkerConfig → List Char → Except (List Char) (List RawSpan)
  tokenChunk : TokenChunkerConfig → List Char → Except (List Char) (List RawSpan)
  sentenceChunk : SentenceChunkerConfig → List Char → Except (List Char) (List RawSpan)

/-- chonkie_bridge.py `chunk_with_code_chunker`. -/
def chunk_with_code_chunker (B : ChonkieBackends)
    (code filepath : List Char) (chunk_size : Int) :
    Except (List Char) (List Chunk) := do
  let spans ← B.codeChunk
    { language := get_language_from_filepath filepath
      tokenizer := "character".toList
      chunk_size := chunk_size } code
  pure (normalizeSpans code filepath spans)

/-- chonkie_bridge.py `chunk_with_recursive_chunker`. It takes an
`overlap` argument but the `RecursiveChunker` construction does not
use it (the source docstring: RecursiveChunker does not support
overlap directly). -/
def chunk_with_recursive_chunker (B : ChonkieBackends)
    (code filepath : List Char) (chunk_size : Int) (overlap : Int) :
    Except (List Char) (List Chunk) := do
  let spans ← B.recursiveChunk
    { tokenizer := "character".toList
      chunk_size := chunk_size } code
  pure (normalizeSpans code filepath spans)

/-- chonkie_bridge.py `chunk_with_semantic_chunker`
(`similarity_threshold=0.5` is a fixed constant). -/
def chunk_with_semantic_chunker (B : ChonkieBackends)
    (code filepath : List Char) (chunk_size : Int) :
    Except (List Char) (List Chunk) := do
  let spans ← B.semanticChunk
    { chunk_size := chunk_size
      similarity_threshold := (1 : ℚ) / 2 } code
  pure (normalizeSpans code filepath spans)

/-- chonkie_bridge.py `chunk_with_token_chunker`
(`chunk_overlap=overlap` is passed through). -/
def chunk_with_token_chunker (B : ChonkieBackends)
    (code filepath : List Char) (chunk_size : Int) (overlap : Int) :
    Except (List Char) (List Chunk) := do
  let spans ← B.tokenChunk
    { tokenizer := "character".toList
      chunk_size := chunk_size
      chunk_overlap := overlap } code
  pure (normalizeSpans code filepath spans)

/-- chonkie_bridge.py `chunk_with_sentence_chunker`. -/
def chunk_with_sentence_chunker (B : ChonkieBackends)
    (code filepath : List Char) (chunk_size : Int) :
    Except (List Char) (List Chunk) := do
  let spans ← B.sentenceChunk
    { tokenizer := "character".toList
      chunk_size := chunk_size
      min_sentences_per_chunk := 1 } code
  pure (normalizeSpans code filepath spans)

/-- The dispatch chain of chonkie_bridge.py `main` (lines 233-248):
`some` wraps the outcome of the selected adapter, `none` means the
final else branch (unknown chunker type) was reached. -/
def chonkieRun (B : ChonkieBackends) (chunker_type filepath : List Char)
    (chunk_size overlap : Int) (code : List Char) :
    Option (Except (List Char) (List Chunk)) :=
  if chunker_type = "code".toList then
    some (chunk_with_code_chunker B code filepath chunk_size)
  else if chunker_type = "recursive".toList then
    some (chunk_with_recursive_chunker B code filepath chunk_size overlap)
  else if chunker_type = "semantic".toList then
    some (chunk_with_semantic_chunker B code filepath chunk_size)
  else if chunker_type = "token".toList then
    some (chunk_with_token_chunker B code filepath chunk_size overlap)
  else if chunker_type = "sentence".toList then
    some (chunk_with_sentence_chunker B code filepath chunk_size)
  else none

/-- The f-string of the unknown-chunker error in chonkie_bridge.py. -/
def unknownChunkerMessage (chunker_type : List Char) : List Char :=
  "Unknown chunker type: ".toList ++ chunker_type
    ++ ". Supported: code, recursive, semantic, token, sentence".toList

/-- Observable outcome of one bridge invocation: a JSON chunk array on
stdout with exit 0, an error JSON produced by the except-clause with
exit 1, or the unknown-type message on stderr followed by exit 1. -/
inductive BridgeOutcome where
  | chunks (results : List Chunk)
  | errorJson (message : List Char)
  | usageError (message : List Char)
deriving DecidableEq, Repr

/-- Exit status of each outcome (`sys.exit(1)` on both failure paths,
implicit 0 on success). -/
def exitCodeOf : BridgeOutcome → Nat
  | BridgeOutcome.chunks _ => 0
  | BridgeOutcome.errorJson _ => 1
  | BridgeOutcome.usageError _ => 1

/-- chonkie_bridge.py `main` after argument parsing: `overlapArg` is
`sys.argv[4]` when present (`overlap = int(sys.argv[4]) if
len(sys.argv) > 4 else 0`), the try/except converts an adapter
exception into `{"error": str(e)}` with exit 1, and the unknown-type
branch reports to stderr with exit 1. -/
def chonkieMain (B : ChonkieBackends) (chunker_type filepath : List Char)
    (chunk_size : Int) (overlapArg : Option Int) (code : List Char) :
    BridgeOutcome :=
  match chonkieRun B chunker_type filepath chunk_size (overlapArg.getD 0) code with
  | none => BridgeOutcome.usageError (unknownChunkerMessage chunker_type)
  | some (Except.error e) => BridgeOutcome.errorJson e
  | some (Except.ok results) => BridgeOutcome.chunks results

/-- A document produced by langchain `create_documents` with
`add_start_index=True`: `page_content` plus the `start_index`
metadata entry (`doc.metadata.get("start_index", 0)` defaults to 0
when absent). -/
structure LCDoc where
  page_content : List Char
  start_index : Option Nat
deriving DecidableEq, Repr

/-- Configuration of langchain `RecursiveCharacterTextSplitter`:
`from_language(language, ...)` when a language was resolved, the
generic constructor otherwise — captured by the optional language. -/
structure RCTSConfig where
  language : Option LCLanguage
  chunk_size : Int
  chunk_overlap : Int
  add_start_index : Bool
deriving DecidableEq, Repr

/-- Per-document record construction in `chunk_with_langchain`:
`start_idx = doc.metadata.get("start_index", 0)`,
`end_idx = start_idx + len(doc.page_content)`. -/
def langchainDocChunk (code filepath : List Char) (doc : LCDoc) : Chunk :=
  { id := chunkId filepath
      (lineOf code (doc.start_index.getD 0))
      (lineOf code (doc.start_index.getD 0 + doc.page_content.length))
    text := doc.page_content
    startLine := lineOf code (doc.start_index.getD 0)
    endLine := lineOf code (doc.start_index.getD 0 + doc.page_content.length) }

/-- langchain_bridge.py `chunk_with_langchain`; the external splitter
(builder plus `create_documents([code])`) is the abstract `S`. -/
def chunk_with_langchain
    (S : RCTSConfig → List Char → Except (List Char) (List LCDoc))
    (code filepath : List Char) (chunk_size overlap : Int) :
    Except (List Char) (List Chunk) := do
  let docs ← S
    { language := get_language_enum filepath
      chunk_size := chunk_size
      chunk_overlap := overlap
      add_start_index := true } code
  pure (docs.map (langchainDocChunk code filepath))

/-- langchain_bridge.py `main` after argument parsing:
`chunk_size = int(sys.argv[2]) if len(sys.argv) > 2 else 1500`,
`overlap = int(sys.argv[3]) if len(sys.argv) > 3 else 100`,
then try/except around the adapter. -/
def langchainMain
    (S : RCTSConfig → List Char → Except (List Char) (List LCDoc))
    (filepath : List Char) (chunkSizeArg overlapArg : Option Int)
    (code : List Char) : BridgeOutcome :=
  match chunk_with_langchain S code filepath
      (chunkSizeArg.getD 1500) (overlapArg.getD 100) with
  | Except.error e => BridgeOutcome.errorJson e
  | Except.ok results => BridgeOutcome.chunks results

/-- A node returned by llama-index `get_nodes_from_documents`: its
text and the possibly-missing character offsets. -/
structure LINode where
  text : List Char
  start_char_idx : Option Nat
  end_char_idx : Option Nat
deriving DecidableEq, Repr

/-- Configuration of llama-index `CodeSplitter`. -/
structure CodeSplitterConfig where
  language : List Char
  max_chars : Int
deriving DecidableEq, Repr

/-- Per-node record construction in `chunk_with_llamaindex`:
`start_idx = node.start_char_idx if node.start_char_idx is not None else 0`,
`end_idx = node.end_char_idx if node.end_char_idx is not None else len(node.text)`. -/
def llamaNodeChunk (code filepath : List Char) (node : LINode) : Chunk :=
  { id := chunkId filepath
      (lineOf code (node.start_char_idx.getD 0))
      (lineOf code (node.end_char_idx.getD node.text.length))
    text := node.text
    startLine := lineOf code (node.start_char_idx.getD 0)
    endLine := lineOf code (node.end_char_idx.getD node.text.length) }

/-- llamaindex_bridge.py `chunk_with_llamaindex`; the external
splitter (`CodeSplitter` plus `get_nodes_from_documents`) is the
abstract `S`. -/
def chunk_with_llamaindex
    (S : CodeSplitterConfig → List Char → Except (List Char) (List LINode))
    (code filepath : List Char) (chunk_size : Int) :
    Except (List Char) (List Chunk) := do
  let nodes ← S
    { language := get_language filepath
      max_chars := chunk_size } code
  pure (nodes.map (llamaNodeChunk code filepath))

/-- llamaindex_bridge.py `main` after argument parsing. -/
def llamaindexMain
    (S : CodeSplitterConfig → List Char → Except (List Char) (List LINode))
    (filepath : List Char) (chunk_size : Int) (code : List Char) :
    BridgeOutcome :=
  match chunk_with_llamaindex S code filepath chunk_size with
  | Except.error e => BridgeOutcome.errorJson e
  | Except.ok results => BridgeOutcome.chunks results

/-- Stub backends that always succeed with no spans; used to observe
the dispatch behaviour at concrete inputs. -/
def stubOkBackends : ChonkieBackends :=
  { codeChunk := fun _ _ => Except.ok []
    recursiveChunk := fun _ _ => Except.ok []
    semanticChunk := fun _ _ => Except.ok []
    tokenChunk := fun _ _ => Except.ok []
    sentenceChunk := fun _ _ => Except.ok [] }

/-- Stub backends that always raise with message "boom". -/
def stubErrBackends : ChonkieBackends :=
  { codeChunk := fun _ _ => Except.error "boom".toList
    recursiveChunk := fun _ _ => Except.error "boom".toList
    semanticChunk := fun _ _ => Except.error "boom".toList
    tokenChunk := fun _ _ => Except.error "boom".toList
    sentenceChunk := fun _ _ => Except.error "boom".toList }

/-- Stub langchain splitter that reports which overlap it was
configured with: succeeds only when `chunk_overlap` is 0. -/
def overlapProbe : RCTSConfig → List Char → Except (List Char) (List LCDoc) :=
  fun cfg _ =>
    if cfg.chunk_overlap = 0 then Except.ok []
    else Except.error "nonzero overlap".toList

/-- Stub langchain splitter that always succeeds with no documents. -/
def stubOkSplitter : RCTSConfig → List Char → Except (List Char) (List LCDoc) :=
  fun _ _ => Except.ok []

/-- Counting newlines in a longer prefix gives at least as many, so
line numbers are monotone in the offset. -/
theorem lineOf_mono (code : List Char) {j k : Nat} (h : j ≤ k) :
    lineOf code j ≤ lineOf code k := by
  unfold lineOf
  have hsub : (code.take j).Sublist (code.take k) := by
    have ht := List.take_sublist j (code.take k)
    rwa [List.take_take, Nat.min_eq_left h] at ht
  exact Nat.add_le_add_right (hsub.count_le '\n') 1

/-- C1: for every document and offset, the line number is the newline
count of the prefix plus one (offset 0 is line 1), and every adapter
record (the five chonkie adapters via `mkChunk`, langchain via
`langchainDocChunk`, llamaindex via `llamaNodeChunk`) computes
startLine and endLine by exactly this formula at its span offsets. -/
theorem c1_line_numbers :
    (∀ d : List Char, lineOf d 0 = 1) ∧
    (∀ (d : List Char) (k : Nat), lineOf d k = (d.take k).count '\n' + 1) ∧
    (∀ code filepath sp,
      (mkChunk code filepath sp).startLine
          = (code.take sp.startIndex).count '\n' + 1 ∧
      (mkChunk code filepath sp).endLine
          = (code.take sp.endIndex).count '\n' + 1) ∧
    (∀ code filepath doc,
      (langchainDocChunk code filepath doc).startLine
          = (code.take (doc.start_index.getD 0)).count '\n' + 1 ∧
      (langchainDocChunk code filepath doc).endLine
          = (code.take (doc.start_index.getD 0 + doc.page_content.length)).count '\n' + 1) ∧
    (∀ code filepath node,
      (llamaNodeChunk code filepath node).startLine
          = (code.take (node.start_char_idx.getD 0)).count '\n' + 1 ∧
      (llamaNodeChunk code filepath node).endLine
          = (code.take (node.end_char_idx.getD node.text.length)).count '\n' + 1) ∧
    (∀ B code filepath cs ov spans,
      chunk_with_code_chunker B code filepath cs
          = (B.codeChunk { language := get_language_from_filepath filepath
                           tokenizer := "character".toList
                           chunk_size := cs } code).map (normalizeSpans code filepath) ∧
      chunk_with_recursive_chunker B code filepath cs ov
          = (B.recursiveChunk { tokenizer := "character".toList
                                chunk_size := cs } code).map (normalizeSpans code filepath) ∧
      normalizeSpans code filepath spans = spans.map (mkChunk code filepath)) := by
  refine ⟨fun d => rfl, fun d k => rfl, fun _ _ _ => ⟨rfl, rfl⟩,
    fun _ _ _ => ⟨rfl, rfl⟩, fun _ _ _ => ⟨rfl, rfl⟩,
    fun B code filepath cs ov spans => ⟨?_, ?_, rfl⟩⟩
  · unfold chunk_with_code_chunker
    cases B.codeChunk { language := get_language_from_filepath filepath
                        tokenizer := "character".toList
                        chunk_size := cs } code <;> rfl
  · unfold chunk_with_recursive_chunker
    cases B.recursiveChunk { tokenizer := "character".toList
                             chunk_size := cs } code <;> rfl

/-- C2: in each bridge, an exception raised by the selected adapter
yields exactly one error JSON carrying the exception message, with
exit status 1, and never a chunk list. -/
theorem c2_adapter_exception :
    (∀ B ct fp cs ov code e,
      chonkieRun B ct fp cs (Option.getD ov 0) code = some (Except.error e) →
      chonkieMain B ct fp cs ov code = BridgeOutcome.errorJson e ∧
      exitCodeOf (chonkieMain B ct fp cs ov code) = 1 ∧
      ∀ rs, chonkieMain B ct fp cs ov code ≠ BridgeOutcome.chunks rs) ∧
    (∀ S fp csa ova code e,
      chunk_with_langchain S code fp (Option.getD csa 1500) (Option.getD ova 100)
          = Except.error e →
      langchainMain S fp csa ova code = BridgeOutcome.errorJson e ∧
      exitCodeOf (langchainMain S fp csa ova code) = 1 ∧
      ∀ rs, langchainMain S fp csa ova code ≠ BridgeOutcome.chunks rs) ∧
    (∀ S fp cs code e,
      chunk_with_llamaindex S code fp cs = Except.error e →
      llamaindexMain S fp cs code = BridgeOutcome.errorJson e ∧
      exitCodeOf (llamaindexMain S fp cs code) = 1 ∧
      ∀ rs, llamaindexMain S fp cs code ≠ BridgeOutcome.chunks rs) := by
  refine ⟨fun B ct fp cs ov code e h => ?_,
          fun S fp csa ova code e h => ?_,
          fun S fp cs code e h => ?_⟩
  · have hm : chonkieMain B ct fp cs ov code = BridgeOutcome.errorJson e := by
      unfold chonkieMain
      rw [h]
    exact ⟨hm, by rw [hm]; rfl, fun rs hc => by rw [hm] at hc; exact BridgeOutcome.noConfusion hc⟩
  · have hm : langchainMain S fp csa ova code = BridgeOutcome.errorJson e := by
      unfold langchainMain
      rw [h]
    exact ⟨hm, by rw [hm]; rfl, fun rs hc => by rw [hm] at hc; exact BridgeOutcome.noConfusion hc⟩
  · have hm : llamaindexMain S fp cs code = BridgeOutcome.errorJson e := by
      unfold llamaindexMain
      rw [h]
    exact ⟨hm, by rw [hm]; rfl, fun rs hc => by rw [hm] at hc; exact BridgeOutcome.noConfusion hc⟩

/-- Concrete instance of the adapter-exception contract: the chonkie
bridge with an always-raising code chunker reports the error JSON
with exit 1. -/
theorem c2_adapter_exception_witness :
    chonkieMain stubErrBackends "code".toList "a.py".toList 500 none "x".toList
        = BridgeOutcome.errorJson "boom".toList ∧
    exitCodeOf (chonkieMain stubErrBackends "code".toList "a.py".toList 500 none "x".toList) = 1 := by
  have h := c2_adapter_exception.1 stubErrBackends "code".toList "a.py".toList
    500 none "x".toList "boom".toList rfl
  exact ⟨h.1, h.2.1⟩

/-- C3 as stated is false: with size budget 0 the chonkie bridge and
the langchain bridge both still invoke the selected adapter (the
outcome depends on the backend and can even be a success with exit
0), instead of failing before any adapter call. -/
theorem c3_counterexample :
    chonkieMain stubOkBackends "code".toList "a.py".toList 0 none "x".toList
        = BridgeOutcome.chunks [] ∧
    exitCodeOf (chonkieMain stubOkBackends "code".toList "a.py".toList 0 none "x".toList) = 0 ∧
    chonkieMain stubErrBackends "code".toList "a.py".toList 0 none "x".toList
        = BridgeOutcome.errorJson "boom".toList ∧
    langchainMain overlapProbe "a.py".toList (some 0) (some 0) "x".toList
        = BridgeOutcome.chunks [] ∧
    exitCodeOf (langchainMain overlapProbe "a.py".toList (some 0) (some 0) "x".toList) = 0 :=
  ⟨rfl, rfl, rfl, rfl, rfl⟩

/-- C3 amended: a non-positive size budget is not validated by either
bridge; under every one of the five chonkie strategies and in the
langchain bridge it is passed to the selected backend adapter, which
is invoked, and the outcome is whatever the backend produces (a
success or a caught adapter failure). -/
theorem c3_nonpositive_budget_passthrough (B : ChonkieBackends)
    (S : RCTSConfig → List Char → Except (List Char) (List LCDoc))
    (fp code : List Char) (cs : Int) (ov : Option Int) (hcs : cs ≤ 0) :
    (chonkieMain B "code".toList fp cs ov code =
      match B.codeChunk { language := get_language_from_filepath fp
                          tokenizer := "character".toList
                          chunk_size := cs } code with
      | Except.ok spans => BridgeOutcome.chunks (normalizeSpans code fp spans)
      | Except.error e => BridgeOutcome.errorJson e) ∧
    (chonkieMain B "recursive".toList fp cs ov code =
      match B.recursiveChunk { tokenizer := "character".toList
                               chunk_size := cs } code with
      | Except.ok spans => BridgeOutcome.chunks (normalizeSpans code fp spans)
      | Except.error e => BridgeOutcome.errorJson e) ∧
    (chonkieMain B "semantic".toList fp cs ov code =
      match B.semanticChunk { chunk_size := cs
                              similarity_threshold := (1 : ℚ) / 2 } code with
      | Except.ok spans => BridgeOutcome.chunks (normalizeSpans code fp spans)
      | Except.error e => BridgeOutcome.errorJson e) ∧
    (chonkieMain B "token".toList fp cs ov code =
      match B.tokenChunk { tokenizer := "character".toList
                           chunk_size := cs
                           chunk_overlap := ov.getD 0 } code with
      | Except.ok spans => BridgeOutcome.chunks (normalizeSpans code fp spans)
      | Except.error e => BridgeOutcome.errorJson e) ∧
    (chonkieMain B "sentence".toList fp cs ov code =
      match B.sentenceChunk { tokenizer := "character".toList
                              chunk_size := cs
                              min_sentences_per_chunk := 1 } code with
      | Except.ok spans => BridgeOutcome.chunks (normalizeSpans code fp spans)
      | Except.error e => BridgeOutcome.errorJson e) ∧
    (langchainMain S fp (some cs) ov code =
      match S { language := get_language_enum fp
                chunk_size := cs
                chunk_overlap := ov.getD 100
                add_start_index := true } code with
      | Except.ok docs => BridgeOutcome.chunks (docs.map (langchainDocChunk code fp))
      | Except.error e => BridgeOutcome.errorJson e) := by
  refine ⟨?_, ?_, ?_, ?_, ?_, ?_⟩
  · unfold chonkieMain chonkieRun chunk_with_code_chunker
    rw [if_pos rfl]
    cases B.codeChunk { language := get_language_from_filepath fp
                        tokenizer := "character".toList
                        chunk_size := cs } code <;> rfl
  · unfold chonkieMain chonkieRun chunk_with_recursive_chunker
    rw [if_neg (by decide), if_pos rfl]
    cases B.recursiveChunk { tokenizer := "character".toList
                             chunk_size := cs } code <;> rfl
  · unfold chonkieMain chonkieRun chunk_with_semantic_chunker
    rw [if_neg (by decide), if_neg (by decide), if_pos rfl]
    cases B.semanticChunk { chunk_size := cs
                            similarity_threshold := (1 : ℚ) / 2 } code <;> rfl
  · unfold chonkieMain chonkieRun chunk_with_token_chunker
    rw [if_neg (by decide), if_neg (by decide), if_neg (by decide), if_pos rfl]
    cases B.tokenChunk { tokenizer := "character".toList
                         chunk_size := cs
                         chunk_overlap := ov.getD 0 } code <;> rfl
  · unfold chonkieMain chonkieRun chunk_with_sentence_chunker
    rw [if_neg (by decide), if_neg (by decide), if_neg (by decide),
      if_neg (by decide), if_pos rfl]
    cases B.sentenceChunk { tokenizer := "character".toList
                            chunk_size := cs
                            min_sentences_per_chunk := 1 } code <;> rfl
  · unfold langchainMain chunk_with_langchain
    simp only [Option.getD_some]
    cases S { language := get_language_enum fp
              chunk_size := cs
              chunk_overlap := ov.getD 100
              add_start_index := true } code <;> rfl

/-- Concrete instance of the pass-through: budget -3 with succeeding
backends yields a success in the chonkie bridge (under the code and
recursive strategies) and in the langchain bridge, never an
invalid-request error. -/
theorem c3_passthrough_witness :
    chonkieMain stubOkBackends "code".toList "a.py".toList (-3) none "x".toList
        = BridgeOutcome.chunks [] ∧
    chonkieMain stubOkBackends "recursive".toList "a.py".toList (-3) none "x".toList
        = BridgeOutcome.chunks [] ∧
    langchainMain stubOkSplitter "a.py".toList (some (-3)) none "x".toList
        = BridgeOutcome.chunks [] := by
  have h := c3_nonpositive_budget_passthrough stubOkBackends stubOkSplitter
    "a.py".toList "x".toList (-3) none (by decide)
  exact ⟨h.1.trans rfl, h.2.1.trans rfl, h.2.2.2.2.2.trans rfl⟩

/-- C4: an unrecognized chunker type yields the usage error naming the
invalid strategy, exit status 1, and the outcome is the same for
every backend (no adapter is consulted). -/
theorem c4_unknown_strategy (ct fp : List Char) (cs : Int) (ov : Option Int)
    (code : List Char)
    (h1 : ct ≠ "code".toList) (h2 : ct ≠ "recursive".toList)
    (h3 : ct ≠ "semantic".toList) (h4 : ct ≠ "token".toList)
    (h5 : ct ≠ "sentence".toList) :
    (∀ B, chonkieMain B ct fp cs ov code
        = BridgeOutcome.usageError (unknownChunkerMessage ct)) ∧
    unknownChunkerMessage ct
        = "Unknown chunker type: ".toList ++ ct
          ++ ". Supported: code, recursive, semantic, token, sentence".toList ∧
    (∀ B, exitCodeOf (chonkieMain B ct fp cs ov code) = 1) := by
  have hrun : ∀ B, chonkieRun B ct fp cs (ov.getD 0) code = none := by
    intro B
    unfold chonkieRun
    rw [if_neg h1, if_neg h2, if_neg h3, if_neg h4, if_neg h5]
  refine ⟨fun B => ?_, rfl, fun B => ?_⟩
  · unfold chonkieMain
    rw [hrun B]
  · unfold chonkieMain
    rw [hrun B]
    rfl

/-- Concrete instance of the unknown-strategy contract with the
strategy name from the spec scenario. -/
theorem c4_unknown_strategy_witness :
    chonkieMain stubOkBackends "not-a-real-strategy".toList "a.py".toList 500 none "x".toList
        = BridgeOutcome.usageError (unknownChunkerMessage "not-a-real-strategy".toList) ∧
    exitCodeOf (chonkieMain stubOkBackends "not-a-real-strategy".toList "a.py".toList 500 none "x".toList) = 1 := by
  have h := c4_unknown_strategy "not-a-real-strategy".toList "a.py".toList 500 none
    "x".toList (by decide) (by decide) (by decide) (by decide) (by decide)
  exact ⟨h.1 stubOkBackends, h.2.2 stubOkBackends⟩

/-- C5: every adapter record carries the id
`{filepath}:{startLine}-{endLine}` and the span text verbatim;
concretely the id of lines 1-3 of a.py is "a.py:1-3". -/
theorem c5_id_and_verbatim_text :
    (∀ code fp sp,
      (mkChunk code fp sp).id
          = fp ++ ":".toList ++ (Nat.repr (mkChunk code fp sp).startLine).toList
            ++ "-".toList ++ (Nat.repr (mkChunk code fp sp).endLine).toList ∧
      (mkChunk code fp sp).text = sp.text) ∧
    (∀ code fp doc,
      (langchainDocChunk code fp doc).id
          = fp ++ ":".toList ++ (Nat.repr (langchainDocChunk code fp doc).startLine).toList
            ++ "-".toList ++ (Nat.repr (langchainDocChunk code fp doc).endLine).toList ∧
      (langchainDocChunk code fp doc).text = doc.page_content) ∧
    (∀ code fp node,
      (llamaNodeChunk code fp node).id
          = fp ++ ":".toList ++ (Nat.repr (llamaNodeChunk code fp node).startLine).toList
            ++ "-".toList ++ (Nat.repr (llamaNodeChunk code fp node).endLine).toList ∧
      (llamaNodeChunk code fp node).text = node.text) ∧
    chunkId "a.py".toList 1 3 = "a.py:1-3".toList := by
  exact ⟨fun _ _ _ => ⟨rfl, rfl⟩, fun _ _ _ => ⟨rfl, rfl⟩,
    fun _ _ _ => ⟨rfl, rfl⟩, by decide⟩

/-- takeWhile of a not-dot predicate consumes exactly the dot-free
block before the first dot. -/
theorem takeWhile_until_dot (rest : List Char) :
    ∀ xs : List Char, (∀ x ∈ xs, x ≠ '.') →
      (xs ++ '.' :: rest).takeWhile (fun c => c != '.') = xs := by
  intro xs
  induction xs with
  | nil => intro _; simp [List.takeWhile]
  | cons a as ih =>
      intro h
      have ha : (a != '.') = true := by
        simpa using h a (List.mem_cons_self a as)
      simp only [List.cons_append, List.takeWhile_cons, ha, if_true]
      rw [ih (fun x hx => h x (List.mem_cons_of_mem a hx))]

/-- The extension extracted from `u ++ "." ++ v` with no dot in `v`
is the lower-cased `v`: rsplit takes the suffix after the last dot. -/
theorem extOf_afterLastDot (u v : List Char) (hv : '.' ∉ v) :
    extOf (u ++ '.' :: v) = v.map Char.toLower := by
  unfold extOf
  rw [if_pos (by simp)]
  have hrev : (u ++ '.' :: v).reverse = v.reverse ++ '.' :: u.reverse := by
    rw [List.reverse_append, List.reverse_cons, List.append_assoc,
      List.singleton_append]
  rw [hrev, takeWhile_until_dot u.reverse v.reverse
    (fun x hx => fun hxd => hv (by rw [← hxd] at hv ⊢; exact List.mem_reverse.mp hx)),
    List.reverse_reverse]

/-- C6: classification extracts the lower-cased suffix after the last
dot and looks it up in the adapter table; "foo.py" classifies as
python in all three bridges; an unknown extension yields the fixed
default ("python" for chonkie and llamaindex) or no tag (langchain);
each classifier is a total function of the input string. -/
theorem c6_classification :
    (get_language_from_filepath "foo.py".toList = "python".toList) ∧
    (get_language "foo.py".toList = "python".toList) ∧
    (get_language_enum "foo.py".toList = some LCLanguage.PYTHON) ∧
    (∀ u v : List Char, '.' ∉ v →
      extOf (u ++ '.' :: v) = v.map Char.toLower) ∧
    (∀ s, get_language_from_filepath s
        = (chonkieLangMap.lookup (extOf s)).getD "python".toList) ∧
    (∀ s, get_language s = (llamaLangMap.lookup (extOf s)).getD "python".toList) ∧
    (∀ s, get_language_enum s = langchainLangMap.lookup (extOf s)) ∧
    (get_language_from_filepath "foo.unknownext".toList = "python".toList) ∧
    (get_language "foo.unknownext".toList = "python".toList) ∧
    (get_language_enum "foo.unknownext".toList = none) := by
  exact ⟨by decide, by decide, by decide, extOf_afterLastDot,
    fun s => rfl, fun s => rfl, fun s => rfl, by decide, by decide, by decide⟩

/-- Concrete instance of the extension-extraction law at "foo.py". -/
theorem c6_classification_witness :
    extOf ("foo".toList ++ '.' :: "py".toList) = "py".toList.map Char.toLower :=
  c6_classification.2.2.2.1 "foo".toList "py".toList (by decide)

/-- C7: when the backend spans are well-formed (start at most end) and
listed in non-decreasing start order — the Raw Span contract of the
design — every normalized chunk of every adapter satisfies
startLine at most endLine, and the chunks keep non-decreasing
startLine order; for langchain the per-chunk bound is unconditional
because the end offset is start plus the text length. -/
theorem c7_line_order :
    (∀ code fp spans, (∀ sp ∈ spans, sp.startIndex ≤ sp.endIndex) →
      ∀ c ∈ normalizeSpans code fp spans, c.startLine ≤ c.endLine) ∧
    (∀ code fp spans,
      spans.Pairwise (fun a b => a.startIndex ≤ b.startIndex) →
      (normalizeSpans code fp spans).Pairwise (fun a b => a.startLine ≤ b.startLine)) ∧
    (∀ code fp doc, (langchainDocChunk code fp doc).startLine
        ≤ (langchainDocChunk code fp doc).endLine) ∧
    (∀ code fp (docs : List LCDoc),
      docs.Pairwise (fun a b => a.start_index.getD 0 ≤ b.start_index.getD 0) →
      (docs.map (langchainDocChunk code fp)).Pairwise
        (fun a b => a.startLine ≤ b.startLine)) ∧
    (∀ code fp (node : LINode),
      node.start_char_idx.getD 0 ≤ node.end_char_idx.getD node.text.length →
      (llamaNodeChunk code fp node).startLine ≤ (llamaNodeChunk code fp node).endLine) ∧
    (∀ code fp (nodes : List LINode),
      nodes.Pairwise (fun a b => a.start_char_idx.getD 0 ≤ b.start_char_idx.getD 0) →
      (nodes.map (llamaNodeChunk code fp)).Pairwise
        (fun a b => a.startLine ≤ b.startLine)) := by
  refine ⟨?_, ?_, ?_, ?_, ?_, ?_⟩
  · intro code fp spans h c hc
    simp only [normalizeSpans] at hc
    obtain ⟨sp, hsp, rfl⟩ := List.mem_map.mp hc
    exact lineOf_mono code (h sp hsp)
  · intro code fp spans h
    simp only [normalizeSpans]
    exact List.Pairwise.map _ (fun a b hab => lineOf_mono code hab) h
  · intro code fp doc
    exact lineOf_mono code (Nat.le_add_right _ _)
  · intro code fp docs h
    exact List.Pairwise.map _ (fun a b hab => lineOf_mono code hab) h
  · intro code fp node h
    exact lineOf_mono code h
  · intro code fp nodes h
    exact List.Pairwise.map _ (fun a b hab => lineOf_mono code hab) h

/-- Concrete instance of the ordering invariant on a two-span
document. -/
theorem c7_line_order_witness :
    (∀ c ∈ normalizeSpans "l1\nl2".toList "a.py".toList
        [⟨"l1\n".toList, 0, 3⟩, ⟨"l2".toList, 3, 5⟩], c.startLine ≤ c.endLine) ∧
    (normalizeSpans "l1\nl2".toList "a.py".toList
        [⟨"l1\n".toList, 0, 3⟩, ⟨"l2".toList, 3, 5⟩]).Pairwise
      (fun a b => a.startLine ≤ b.startLine) :=
  ⟨c7_line_order.1 "l1\nl2".toList "a.py".toList
      [⟨"l1\n".toList, 0, 3⟩, ⟨"l2".toList, 3, 5⟩] (by decide),
   c7_line_order.2.1 "l1\nl2".toList "a.py".toList
      [⟨"l1\n".toList, 0, 3⟩, ⟨"l2".toList, 3, 5⟩] (by decide)⟩

/-- C8 as stated is false: the langchain bridge defaults a missing
overlap argument to 100, not 0, and the two defaults are observably
different behaviours. -/
theorem c8_counterexample :
    langchainMain overlapProbe "a.py".toList (some 500) none "x".toList
        = BridgeOutcome.errorJson "nonzero overlap".toList ∧
    langchainMain overlapProbe "a.py".toList (some 500) (some 0) "x".toList
        = BridgeOutcome.chunks [] ∧
    langchainMain overlapProbe "a.py".toList (some 500) none "x".toList
        ≠ langchainMain overlapProbe "a.py".toList (some 500) (some 0) "x".toList := by
  decide

/-- C8 amended: a missing overlap defaults to 0 in the chonkie bridge
but to 100 in the langchain bridge (whose missing chunk size defaults
to 1500); the llamaindex bridge takes no overlap argument at all. -/
theorem c8_default_overlap_amended :
    (∀ B ct fp cs code,
      chonkieMain B ct fp cs none code = chonkieMain B ct fp cs (some 0) code) ∧
    (∀ S fp csa code,
      langchainMain S fp csa none code = langchainMain S fp csa (some 100) code) ∧
    (∀ S fp code,
      langchainMain S fp none none code
          = langchainMain S fp (some 1500) (some 100) code) :=
  ⟨fun _ _ _ _ _ => rfl, fun _ _ _ _ => rfl, fun _ _ _ => rfl⟩

/-- A recursive backend stub that reflects its whole configuration
into the returned span, so the result reveals everything the
adapter handed to the external chunker. -/
def recursiveProbe : ChonkieBackends :=
  { stubOkBackends with
    recursiveChunk := fun cfg _ =>
      Except.ok [{ text := cfg.tokenizer, startIndex := 0,
                   endIndex := cfg.chunk_size.toNat }] }

/-- C9 as stated is false: the chonkie recursive adapter discards the
supplied overlap — even a backend that can observe its entire
configuration produces identical results for overlap 5 and 0. -/
theorem c9_counterexample :
    chunk_with_recursive_chunker recursiveProbe "x".toList "a.py".toList 500 5
        = chunk_with_recursive_chunker recursiveProbe "x".toList "a.py".toList 500 0 ∧
    chonkieMain recursiveProbe "recursive".toList "a.py".toList 500 (some 5) "x".toList
        = chonkieMain recursiveProbe "recursive".toList "a.py".toList 500 (some 0) "x".toList :=
  ⟨rfl, rfl⟩

/-- C9 amended: the chonkie recursive adapter accepts an overlap
argument but configures `RecursiveChunker` with the tokenizer and
chunk size only, so its result is independent of the overlap; the
overlap is passed through to the splitter by the chonkie token
adapter (`chunk_overlap`) and by the langchain recursive splitter
(`chunk_overlap`). -/
theorem c9_overlap_passthrough_amended :
    (∀ B code fp cs ov ov',
      chunk_with_recursive_chunker B code fp cs ov
          = chunk_with_recursive_chunker B code fp cs ov') ∧
    (∀ B code fp cs ov,
      chunk_with_token_chunker B code fp cs ov
          = (B.tokenChunk { tokenizer := "character".toList
                            chunk_size := cs
                            chunk_overlap := ov } code).map (normalizeSpans code fp)) ∧
    (∀ S code fp cs ov,
      chunk_with_langchain S code fp cs ov
          = (S { language := get_language_enum fp
                 chunk_size := cs
                 chunk_overlap := ov
                 add_start_index := true } code).map
              (fun docs => docs.map (langchainDocChunk code fp))) := by
  refine ⟨fun B code fp cs ov ov' => rfl, fun B code fp cs ov => ?_, fun S code fp cs ov => ?_⟩
  · unfold chunk_with_token_chunker
    cases B.tokenChunk { tokenizer := "character".toList
                         chunk_size := cs
                         chunk_overlap := ov } code <;> rfl
  · unfold chunk_with_langchain
    cases S { language := get_language_enum fp
              chunk_size := cs
              chunk_overlap := ov
              add_start_index := true } code <;> rfl

/-- C10: in the llamaindex adapter a missing start offset is replaced
by 0 — giving startLine 1 whatever the node's true position — and a
missing end offset is replaced by the length of the node's own text
rather than an offset into the original document. -/
theorem c10_llamaindex_fallbacks :
    (∀ code fp (node : LINode), node.start_char_idx = none →
      (llamaNodeChunk code fp node).startLine = 1 ∧
      (llamaNodeChunk code fp node).startLine = lineOf code 0) ∧
    (∀ code fp (node : LINode), node.end_char_idx = none →
      (llamaNodeChunk code fp node).endLine = lineOf code node.text.length) := by
  constructor
  · intro code fp node h
    constructor
    · show lineOf code (node.start_char_idx.getD 0) = 1
      rw [h]
      rfl
    · show lineOf code (node.start_char_idx.getD 0) = lineOf code 0
      rw [h]
      rfl
  · intro code fp node h
    show lineOf code (node.end_char_idx.getD node.text.length)
        = lineOf code node.text.length
    rw [h]
    rfl

/-- Concrete instance of the llamaindex fallbacks: a node lacking both
offsets, whose text sits at the end of the document, is reported as
starting on line 1. -/
theorem c10_llamaindex_fallbacks_witness :
    (llamaNodeChunk "a\nb\nc".toList "a.py".toList
        { text := "b\nc".toList, start_char_idx := none, end_char_idx := none }).startLine = 1 ∧
    (llamaNodeChunk "a\nb\nc".toList "a.py".toList
        { text := "b\nc".toList, start_char_idx := none, end_char_idx := none }).endLine
      = lineOf "a\nb\nc".toList "b\nc".toList.length :=
  ⟨(c10_llamaindex_fallbacks.1 "a\nb\nc".toList "a.py".toList
      { text := "b\nc".toList, start_char_idx := none, end_char_idx := none } rfl).1,
   c10_llamaindex_fallbacks.2 "a\nb\nc".toList "a.py".toList
      { text := "b\nc".toList, start_char_idx := none, end_char_idx := none } rfl⟩
